import Mathlib

/-!
Verification of the fal.ai OpenWebUI pipe (`openwebui-function-fal-ai.py`).

The single source file defines a class `Pipe` with a configuration record
(`Valves`), a static model registry (`model_map` inside `Pipe.pipe`), prompt
extraction from the chat messages, per-backend argument construction, a single
asynchronous dispatch to `fal_client.submit`, status emission via an optional
event-emitter callback, and translation of the generation result into a string.

The embedding below translates that code line by line:
  * `Valves` mirrors the pydantic `Valves` model with its defaults;
  * `model_map` / `mapGet` mirror the dict and `dict.get(key, default)`;
  * `extractPrompt` mirrors the `for msg in reversed(messages)` loop;
  * `buildArguments` mirrors the if/elif chain keyed on substring containment;
  * `pipe` mirrors the whole `Pipe.pipe` coroutine, with the backend call and
    the event emitter supplied as explicit behaviours, returning the delivered
    status events, the dispatch call (if reached) and the outcome (a returned
    string, or an exception escaping the coroutine).
-/

namespace FalPipe

/-- Python `needle in hay` on strings: substring containment. -/
def strContains (hay needle : String) : Bool :=
  hay.toList.tails.any fun t => needle.toList.isPrefixOf t

/-- One element of a multi-part message content: a dict with optional
`"type"` and `"text"` keys (`p.get("type")`, `p.get("text", "")`). -/
structure Part where
  ty : Option String
  text : Option String
deriving DecidableEq

/-- The `content` value of a message: a plain string, a list of typed parts,
or anything else (including a missing key), which the code ignores. -/
inductive Content where
  | str (s : String)
  | parts (ps : List Part)
  | other
deriving DecidableEq

/-- One chat message: a dict with optional `"role"` and a `content` value. -/
structure Message where
  role : Option String
  content : Content
deriving DecidableEq

/-- The request body: `body.get("model", "")` and `body.get("messages", [])`. -/
structure Body where
  model : Option String
  messages : Option (List Message)
deriving DecidableEq

/-- The `Valves` pydantic model: the operator-editable configuration. -/
structure Valves where
  FAL_KEY : String
  MODEL_ID : String
  WIDTH : Int
  HEIGHT : Int
  ASPECT_RATIO : String
  STYLE : String
  RAW : Bool
  NUM_INFERENCE_STEPS : Int
  ENABLE_SAFETY_CHECKER : Bool
deriving DecidableEq

/-- The field defaults declared on `Valves`. -/
def defaultValves : Valves where
  FAL_KEY := ""
  MODEL_ID := "fal-ai/flux-pro/v1.1-ultra"
  WIDTH := 800
  HEIGHT := 1422
  ASPECT_RATIO := "16:9"
  STYLE := "realistic_image"
  RAW := false
  NUM_INFERENCE_STEPS := 28
  ENABLE_SAFETY_CHECKER := false

/-- The `model_map` dict literal inside `Pipe.pipe`, in insertion order. -/
def model_map : List (String × String) :=
  [("falai-flux-ultra", "fal-ai/flux-pro/v1.1-ultra"),
   ("falai-flux-2-pro", "fal-ai/flux-2-pro"),
   ("falai-recraft-v3", "fal-ai/recraft/v3/text-to-image"),
   ("falai-seedream", "fal-ai/bytedance/seedream/v4.5/text-to-image"),
   ("falai-hunyuan", "fal-ai/hunyuan-image/v3/text-to-image"),
   ("falai-imagen4", "fal-ai/imagen4/preview/fast"),
   ("falai-z-image", "fal-ai/z-image/turbo")]

/-- Python `d.get(key, default)` on a dict represented as an assoc list:
exact key lookup with a fallback. -/
def mapGet (m : List (String × String)) (key dflt : String) : String :=
  match m.find? fun p => p.1 = key with
  | some p => p.2
  | none => dflt

/-- Python test `msg.get("role") == "user"`. -/
def isUserMsg (m : Message) : Bool :=
  m.role == some "user"

/-- Python `str.strip()`: remove leading and trailing whitespace. Written by
structural recursion on the character list so that it evaluates in the
kernel. -/
def strip (s : String) : String :=
  String.mk (((s.toList.dropWhile Char.isWhitespace).reverse.dropWhile
    Char.isWhitespace).reverse)

/-- The prompt computed from the one selected user message: strings are taken
verbatim, part lists are filtered to `"type" == "text"` parts whose
`"text"` values are joined with single spaces and stripped, anything else
leaves the initial `""` untouched. -/
def promptOfMsg (m : Message) : String :=
  match m.content with
  | Content.str s => s
  | Content.parts ps =>
      strip (String.intercalate " "
        ((ps.filter fun p => p.ty == some "text").map fun p => p.text.getD ""))
  | Content.other => ""

/-- The `for msg in reversed(messages)` loop: the most recent message whose
role is `"user"` determines the prompt; the loop breaks there. `""` when no
user message exists. -/
def extractPrompt (messages : List Message) : String :=
  match messages.reverse.find? isUserMsg with
  | some m => promptOfMsg m
  | none => ""

/-- The `get_recraft_size` helper: the fixed ratio-to-preset table with
`"square_hd"` for unknown ratios. -/
def get_recraft_size (ratio : String) : String :=
  match ([("1:1", "square_hd"),
          ("16:9", "landscape_16_9"),
          ("9:16", "portrait_16_9"),
          ("4:3", "landscape_4_3"),
          ("3:4", "portrait_4_3")].find? fun p => p.1 = ratio) with
  | some p => p.2
  | none => "square_hd"

/-- A value stored in the `arguments` dict: string, int, bool, or the nested
`{"width": w, "height": h}` object. -/
inductive Value where
  | str (s : String)
  | int (n : Int)
  | bool (b : Bool)
  | size (width height : Int)
deriving DecidableEq

/-- The `arguments` dict, as a list of key/value pairs in insertion order. -/
abbrev ArgumentSet := List (String × Value)

/-- Lookup of a key in an `ArgumentSet` (`None` models a missing key). -/
def argLookup (args : ArgumentSet) (key : String) : Option Value :=
  (args.find? fun p => p.1 = key).map fun p => p.2

/-- Step 4 of `Pipe.pipe`: build `arguments` from the resolved api model id,
the prompt and the valves, following the if/elif chain of substring tests. -/
def buildArguments (api_model_id prompt : String) (v : Valves) : ArgumentSet :=
  let base : ArgumentSet :=
    [("prompt", Value.str prompt),
     ("enable_safety_checker", Value.bool v.ENABLE_SAFETY_CHECKER)]
  if strContains api_model_id "recraft" then
    base ++ [("image_size", Value.str (get_recraft_size v.ASPECT_RATIO)),
             ("style", Value.str v.STYLE)]
  else if strContains api_model_id "flux-pro/v1.1-ultra" then
    base ++ [("aspect_ratio", Value.str v.ASPECT_RATIO),
             ("raw", Value.bool v.RAW),
             ("output_format", Value.str "jpeg")]
  else if strContains api_model_id "imagen4" then
    base ++ [("aspect_ratio", Value.str v.ASPECT_RATIO)]
  else if strContains api_model_id "hunyuan" then
    base ++ [("image_size", Value.size v.WIDTH v.HEIGHT),
             ("num_inference_steps", Value.int v.NUM_INFERENCE_STEPS)]
  else if strContains api_model_id "flux-2-pro" then
    base ++ [("width", Value.int v.WIDTH),
             ("height", Value.int v.HEIGHT),
             ("output_format", Value.str "jpeg")]
  else if strContains api_model_id "seedream" || strContains api_model_id "z-image" then
    base ++ [("image_size", Value.size v.WIDTH v.HEIGHT)]
  else
    base ++ [("image_size", Value.size v.WIDTH v.HEIGHT)]

/-- The payload handed to the event emitter (its `"data"` dict). -/
structure StatusEvent where
  description : String
  done : Bool
deriving DecidableEq

/-- A behaviour of the `__event_emitter__` callback: on each event it either
returns (`Except.ok`) or raises an exception carrying a message. -/
abbrev Emitter := Option (StatusEvent → Except String Unit)

/-- The method `Pipe.emit_status`: when an emitter is set, await it on the event; the
call has no exception handling, so an emitter error propagates. Returns the
list of events successfully delivered by this call. -/
def emit_status (emitter : Emitter) (message : String) (done : Bool) :
    Except String (List StatusEvent) :=
  match emitter with
  | none => Except.ok []
  | some f =>
    match f { description := message, done := done } with
    | Except.ok _ => Except.ok [{ description := message, done := done }]
    | Except.error e => Except.error e

/-- One image entry of the generation result: a dict whose `"url"` key may be
absent (`images[0].get("url", "")`). -/
structure Image where
  url : Option String
deriving DecidableEq

/-- The dict returned by `handler.get()`: its `"images"` key may be absent. -/
structure GenResult where
  images : Option (List Image)
deriving DecidableEq

/-- A behaviour of the backend call `fal_client.submit(...).get()`: it either
returns a result dict (possibly `None`) or raises with message `msg`. -/
inductive FalOutcome where
  | ok (result : Option GenResult)
  | raise (msg : String)
deriving DecidableEq

/-- A rendering of the Python `str()` of the result dict, used only inside the
`"Error: Generation failed. Result: ..."` message. -/
def pyReprImage (img : Image) : String :=
  match img.url with
  | some u => "\x7b\x27url\x27: \x27" ++ u ++ "\x27\x7d"
  | none => "\x7b\x7d"

/-- Python `str()` of the whole result. -/
def pyReprResult : Option GenResult → String
  | none => "None"
  | some r =>
    match r.images with
    | none => "\x7b\x7d"
    | some l => "\x7b\x27images\x27: [" ++ String.intercalate ", " (l.map pyReprImage) ++ "]\x7d"

/-- How `Pipe.pipe` terminates: a returned string, or an exception escaping
the coroutine (only possible from an emitter failure outside the try block or
inside the except handler). -/
inductive PipeOutcome where
  | ret (s : String)
  | exn (msg : String)
deriving DecidableEq

/-- The observable behaviour of one `Pipe.pipe` call: the status events
delivered to the emitter, the dispatch call made to `fal_client.submit`
(model id and arguments) if one was made, and the outcome. -/
structure PipeResult where
  events : List StatusEvent
  dispatched : Option (String × ArgumentSet)
  outcome : PipeOutcome
deriving DecidableEq

/-- The `except Exception as e` handler: emit a done `"❌ Error: ..."` status
(an emitter failure here escapes), then return `"Error: ..."`. -/
def handleException (emitter : Emitter) (evs1 : List StatusEvent)
    (dispatched : Option (String × ArgumentSet)) (msg : String) : PipeResult :=
  match emit_status emitter ("❌ Error: " ++ msg) true with
  | Except.ok evs2 =>
      { events := evs1 ++ evs2, dispatched := dispatched,
        outcome := PipeOutcome.ret ("Error: " ++ msg) }
  | Except.error e2 =>
      { events := evs1, dispatched := dispatched, outcome := PipeOutcome.exn e2 }

/-- The `else` branch of the result test: no usable image list. -/
def failGeneration (evs1 : List StatusEvent)
    (dispatched : Option (String × ArgumentSet)) (result : Option GenResult) :
    PipeResult :=
  { events := evs1, dispatched := dispatched,
    outcome := PipeOutcome.ret ("Error: Generation failed. Result: " ++ pyReprResult result) }

/-- The method `Pipe.pipe`, with the emitter and the backend behaviour as explicit
parameters. Follows the source step by step: resolve the model id, check
messages, extract the prompt, check the credential, build arguments, emit the
submitting status, dispatch, and translate the result. -/
def pipe (body : Body) (valves : Valves) (emitter : Emitter)
    (fal : FalOutcome) : PipeResult :=
  let request_model_id := body.model.getD ""
  let api_model_id := mapGet model_map request_model_id valves.MODEL_ID
  let messages := body.messages.getD []
  if messages.isEmpty then
    { events := [], dispatched := none,
      outcome := PipeOutcome.ret "Error: No messages found." }
  else
    let prompt := extractPrompt messages
    if prompt = "" then
      { events := [], dispatched := none,
        outcome := PipeOutcome.ret "Error: No prompt found." }
    else if valves.FAL_KEY = "" then
      { events := [], dispatched := none,
        outcome := PipeOutcome.ret "Error: FAL_KEY not set in valves." }
    else
      let arguments := buildArguments api_model_id prompt valves
      match emit_status emitter ("🎨 Generating with " ++ api_model_id ++ "...") false with
      | Except.error e =>
          { events := [], dispatched := none, outcome := PipeOutcome.exn e }
      | Except.ok evs1 =>
        let dispatched := some (api_model_id, arguments)
        match fal with
        | FalOutcome.raise msg => handleException emitter evs1 dispatched msg
        | FalOutcome.ok result =>
          match result with
          | some { images := some (img :: _) } =>
            let image_url := img.url.getD ""
            if image_url = "" then
              { events := evs1, dispatched := dispatched,
                outcome := PipeOutcome.ret "Error: Image URL missing." }
            else
              match emit_status emitter "✅ Generated successfully" true with
              | Except.ok evs2 =>
                  { events := evs1 ++ evs2, dispatched := dispatched,
                    outcome := PipeOutcome.ret ("![Generated Image](" ++ image_url ++ ")") }
              | Except.error e => handleException emitter evs1 dispatched e
          | _ => failGeneration evs1 dispatched result

/-- The first status event of a dispatching request:
`"🎨 Generating with {api_model_id}..."`. -/
def generatingEvent (body : Body) (valves : Valves) : StatusEvent :=
  { description :=
      "🎨 Generating with " ++ mapGet model_map (body.model.getD "") valves.MODEL_ID ++ "...",
    done := false }

/-- The Python test `result and "images" in result and len(result["images"]) > 0`. -/
def resultHasImages : Option GenResult → Bool
  | some { images := some (_ :: _) } => true
  | _ => false

/-- An emitter behaviour that accepts every event. -/
def okSink : StatusEvent → Except String Unit := fun _ => Except.ok ()

/-- An emitter behaviour that raises on every event. -/
def badSink : StatusEvent → Except String Unit := fun _ => Except.error "sink down"

end FalPipe

namespace FalPipe

/-- C1 counterexample: the claim says resolution is by substring containment,
but the code resolves with an exact dict lookup (`model_map.get`). The
requested identifier `"falai-z-image-x"` contains the registered identifier
`"falai-z-image"` as a substring, yet resolution (line 96) returns the
configured default `MODEL_ID` of the valves, not that entry backend target
`"fal-ai/z-image/turbo"`. -/
theorem C1_counterexample :
    strContains "falai-z-image-x" "falai-z-image" = true ∧
    mapGet model_map "falai-z-image-x" defaultValves.MODEL_ID = "fal-ai/flux-pro/v1.1-ultra" ∧
    ("fal-ai/flux-pro/v1.1-ultra" : String) ≠ "fal-ai/z-image/turbo" := by
  refine ⟨by decide, by decide, by decide⟩

/-- C1 amended: model resolution is an exact-equality dict lookup. For every
registered entry, a request whose identifier is exactly the registered short
identifier resolves to that entry backend target, whatever the configured
default is; decorated identifiers instead fall back to the default. -/
theorem C1_exact_lookup (id target dflt : String) (h : (id, target) ∈ model_map) :
    mapGet model_map id dflt = target := by
  simp only [model_map, List.mem_cons, List.not_mem_nil, or_false, Prod.mk.injEq] at h
  rcases h with ⟨rfl, rfl⟩ | ⟨rfl, rfl⟩ | ⟨rfl, rfl⟩ | ⟨rfl, rfl⟩ | ⟨rfl, rfl⟩ | ⟨rfl, rfl⟩ | ⟨rfl, rfl⟩ <;> rfl

/-- C1 witness: the exact-lookup theorem applied to the hunyuan entry. -/
theorem C1_witness :
    ("falai-hunyuan", "fal-ai/hunyuan-image/v3/text-to-image") ∈ model_map ∧
    mapGet model_map "falai-hunyuan" "whatever" = "fal-ai/hunyuan-image/v3/text-to-image" :=
  ⟨by decide, C1_exact_lookup "falai-hunyuan" "fal-ai/hunyuan-image/v3/text-to-image" "whatever" (by decide)⟩

end FalPipe

namespace FalPipe

/-- C7: with an empty credential and a non-empty extracted prompt, the pipe
returns the error string naming the missing `FAL_KEY`, no status event is
delivered to the sink, and no dispatch call is made. -/
theorem C7_missing_credential (body : Body) (valves : Valves) (emitter : Emitter)
    (fal : FalOutcome)
    (hmsg : (body.messages.getD []).isEmpty = false)
    (hprompt : extractPrompt (body.messages.getD []) ≠ "")
    (hkey : valves.FAL_KEY = "") :
    pipe body valves emitter fal =
      { events := [], dispatched := none,
        outcome := PipeOutcome.ret "Error: FAL_KEY not set in valves." } := by
  unfold pipe
  simp [hmsg, hprompt, hkey]

/-- C7 witness: the missing-credential theorem at a concrete request with the
default (empty) credential. -/
theorem C7_witness :
    pipe { model := some "falai-z-image",
           messages := some [{ role := some "user", content := Content.str "a cat" }] }
      defaultValves none (FalOutcome.ok none) =
    { events := [], dispatched := none,
      outcome := PipeOutcome.ret "Error: FAL_KEY not set in valves." } :=
  C7_missing_credential _ _ _ _ (by decide) (by decide) (by decide)

/-- C4: the end-to-end scenario. For model `"falai-z-image"` with user message
`"a cat"` and configuration width 832, height 1216, safety checker off (and
any non-empty credential), dispatch receives exactly
`{prompt, enable_safety_checker, image_size {width, height}}` and the output
is exactly the markdown image reference. -/
theorem C4_scenario (k : String) (hk : k ≠ "") :
    pipe { model := some "falai-z-image",
           messages := some [{ role := some "user", content := Content.str "a cat" }] }
      { defaultValves with
        FAL_KEY := k
        WIDTH := 832
        HEIGHT := 1216
        ENABLE_SAFETY_CHECKER := false }
      none
      (FalOutcome.ok (some { images := some [{ url := some "http://x/y.png" }] })) =
    { events := [], dispatched := some ("fal-ai/z-image/turbo",
        [("prompt", Value.str "a cat"), ("enable_safety_checker", Value.bool false),
         ("image_size", Value.size 832 1216)]),
      outcome := PipeOutcome.ret "![Generated Image](http://x/y.png)" } := by
  unfold pipe
  simp [hk, mapGet, model_map, extractPrompt, isUserMsg, promptOfMsg, buildArguments,
        strContains, emit_status]

/-- C4 witness: the scenario theorem with the concrete credential `"key"`. -/
theorem C4_witness :
    pipe { model := some "falai-z-image",
           messages := some [{ role := some "user", content := Content.str "a cat" }] }
      { defaultValves with
        FAL_KEY := "key"
        WIDTH := 832
        HEIGHT := 1216
        ENABLE_SAFETY_CHECKER := false }
      none
      (FalOutcome.ok (some { images := some [{ url := some "http://x/y.png" }] })) =
    { events := [], dispatched := some ("fal-ai/z-image/turbo",
        [("prompt", Value.str "a cat"), ("enable_safety_checker", Value.bool false),
         ("image_size", Value.size 832 1216)]),
      outcome := PipeOutcome.ret "![Generated Image](http://x/y.png)" } :=
  C4_scenario "key" (by decide)

/-- C5: for every backend target containing `"recraft"` and configured ratio
`"9:16"`, the built arguments carry `image_size = "portrait_16_9"` and a
`style` field, and no raw `aspect_ratio` field; the ratio lookup defaults to
`"square_hd"` for every ratio outside the fixed table. -/
theorem C5_recraft (target prompt : String) (v : Valves)
    (htarget : strContains target "recraft" = true)
    (hratio : v.ASPECT_RATIO = "9:16") :
    argLookup (buildArguments target prompt v) "image_size" = some (Value.str "portrait_16_9") ∧
    argLookup (buildArguments target prompt v) "style" = some (Value.str v.STYLE) ∧
    argLookup (buildArguments target prompt v) "aspect_ratio" = none ∧
    ∀ r : String, r ∉ (["1:1", "16:9", "9:16", "4:3", "3:4"] : List String) →
      get_recraft_size r = "square_hd" := by
  refine ⟨?_, ?_, ?_, ?_⟩
  · simp [buildArguments, htarget, hratio, argLookup, List.find?, get_recraft_size]
  · simp [buildArguments, htarget, hratio, argLookup, List.find?, get_recraft_size]
  · simp [buildArguments, htarget, hratio, argLookup, List.find?, get_recraft_size]
  · intro r hr
    simp only [List.mem_cons, List.not_mem_nil, or_false, not_or] at hr
    obtain ⟨h1, h2, h3, h4, h5⟩ := hr
    unfold get_recraft_size
    rw [List.find?_eq_none.mpr]
    intro x hx
    fin_cases hx <;> simp only [decide_eq_true_eq] <;>
      first
      | exact fun he => h1 he.symm
      | exact fun he => h2 he.symm
      | exact fun he => h3 he.symm
      | exact fun he => h4 he.symm
      | exact fun he => h5 he.symm

/-- C5 witness: the recraft theorem at the real recraft backend target. -/
theorem C5_witness :
    strContains "fal-ai/recraft/v3/text-to-image" "recraft" = true ∧
    argLookup (buildArguments "fal-ai/recraft/v3/text-to-image" "p"
      { defaultValves with ASPECT_RATIO := "9:16" }) "image_size" =
        some (Value.str "portrait_16_9") := by
  have h := C5_recraft "fal-ai/recraft/v3/text-to-image" "p"
    { defaultValves with ASPECT_RATIO := "9:16" } (by decide) (by decide)
  exact ⟨by decide, h.1⟩

/-- The extraction loop selects the most recent user message: prepending older
messages and appending newer non-user messages does not change the prompt. -/
theorem extractPrompt_last_user (pre post : List Message) (m : Message)
    (hm : isUserMsg m = true) (hpost : ∀ x ∈ post, isUserMsg x = false) :
    extractPrompt (pre ++ m :: post) = promptOfMsg m := by
  unfold extractPrompt
  rw [List.reverse_append, List.reverse_cons, List.append_assoc, List.find?_append]
  have hnone : post.reverse.find? isUserMsg = none :=
    List.find?_eq_none.mpr fun x hx => by
      simp [hpost x (List.mem_reverse.mp hx)]
  rw [hnone]
  simp [List.find?, hm]

end FalPipe

namespace FalPipe

/-- C3 counterexample: the claim says a prompt that is empty after trimming
yields `Empty` and a pre-dispatch failure, but string content is taken
verbatim without trimming: a whitespace-only user message produces the
non-empty prompt `"   "`, and the request proceeds past the prompt check
(here reaching the later credential check instead). -/
theorem C3_counterexample :
    extractPrompt [{ role := some "user", content := Content.str "   " }] = "   " ∧
    strip "   " = "" ∧
    ("   " : String) ≠ "" ∧
    (pipe { model := some "m",
            messages := some [{ role := some "user", content := Content.str "   " }] }
       defaultValves none (FalOutcome.ok none)).outcome =
      PipeOutcome.ret "Error: FAL_KEY not set in valves." := by
  refine ⟨by decide, by decide, by decide, by decide⟩

/-- C3 amended: extraction yields `Empty` for every conversation without a
user message; otherwise the most recent user message alone decides the
prompt, and for string content the prompt is the string verbatim (so the
result is `Empty` exactly for the empty string, not for whitespace-only
strings, while part-list content is joined and stripped). -/
theorem C3_amended :
    (∀ messages : List Message, (∀ m ∈ messages, isUserMsg m = false) →
      extractPrompt messages = "") ∧
    (∀ (pre post : List Message) (m : Message), isUserMsg m = true →
      (∀ x ∈ post, isUserMsg x = false) →
      extractPrompt (pre ++ m :: post) = promptOfMsg m) ∧
    (∀ s : String, promptOfMsg { role := some "user", content := Content.str s } = s) := by
  refine ⟨?_, ?_, ?_⟩
  · intro messages h
    unfold extractPrompt
    rw [List.find?_eq_none.mpr fun x hx => by simp [h x (List.mem_reverse.mp hx)]]
  · intro pre post m hm hpost
    exact extractPrompt_last_user pre post m hm hpost
  · intro s
    rfl

/-- C3 witness: the amended theorem at a user-free conversation and at a
conversation whose most recent user message says `"new"`. -/
theorem C3_witness :
    extractPrompt [{ role := some "assistant", content := Content.str "hello" }] = "" ∧
    extractPrompt ([{ role := some "user", content := Content.str "old" }] ++
      { role := some "user", content := Content.str "new" } ::
      [{ role := some "assistant", content := Content.str "reply" }]) = "new" :=
  ⟨C3_amended.1 _ (by decide),
   (C3_amended.2.1 _ _ _ (by decide) (by decide)).trans (C3_amended.2.2 "new")⟩

/-- C6: when the most recent user message carries part-list content, the
prompt is the single-space join, in order, of the `text` of the parts typed
`"text"` (non-text parts ignored), stripped; concretely, text parts
`["A", "B"]` with an interposed image part extract to `"A B"`. -/
theorem C6_multipart (pre post : List Message) (ps : List Part)
    (hpost : ∀ x ∈ post, isUserMsg x = false) :
    extractPrompt (pre ++ { role := some "user", content := Content.parts ps } :: post) =
      strip (String.intercalate " "
        ((ps.filter fun p => p.ty == some "text").map fun p => p.text.getD "")) ∧
    extractPrompt [{ role := some "user", content := Content.parts (
      [{ ty := some "text", text := some "A" },
       { ty := some "image_url", text := none },
       { ty := some "text", text := some "B" }]) }] = "A B" := by
  constructor
  · exact extractPrompt_last_user pre post
      { role := some "user", content := Content.parts ps } rfl hpost
  · decide

/-- C6 witness: the multipart theorem at a single-message conversation whose
parts are the two text parts `"A"` and `"B"`. -/
theorem C6_witness :
    extractPrompt ([] ++ { role := some "user", content := Content.parts (
      [{ ty := some "text", text := some "A" },
       { ty := some "text", text := some "B" }]) } :: []) = "A B" :=
  ((C6_multipart [] [] _ (by simp)).1).trans (by decide)

end FalPipe

namespace FalPipe

/-- C2 counterexample: the claim says every failed generation emits one
terminal `done=true` status event, but for a result with an empty image list
the code returns the error string with no terminal event at all: with a sink
that accepts every event, the delivered events contain no `done=true` entry,
while the outcome is the error-prefixed string. -/
theorem C2_counterexample :
    (pipe { model := some "falai-z-image",
            messages := some [{ role := some "user", content := Content.str "a cat" }] }
       { defaultValves with FAL_KEY := "k" } (some okSink)
       (FalOutcome.ok (some { images := some [] }))).events.filter (fun e => e.done) = [] ∧
    (pipe { model := some "falai-z-image",
            messages := some [{ role := some "user", content := Content.str "a cat" }] }
       { defaultValves with FAL_KEY := "k" } (some okSink)
       (FalOutcome.ok (some { images := some [] }))).outcome =
      PipeOutcome.ret ("Error: Generation failed. Result: " ++
        pyReprResult (some { images := some [] })) := by
  refine ⟨by decide, by decide⟩

/-- C2 amended: on a dispatch that raises, exactly one terminal `done=true`
status event is delivered, after the submitting event and before the
error-prefixed string is returned; but the two structural failure causes
(missing or empty image list, and empty first URL) return their error strings
with no terminal status event. -/
theorem C2_amended (body : Body) (valves : Valves) (f : StatusEvent → Except String Unit)
    (hmsg : (body.messages.getD []).isEmpty = false)
    (hprompt : extractPrompt (body.messages.getD []) ≠ "")
    (hkey : valves.FAL_KEY ≠ "")
    (hf : ∀ ev, f ev = Except.ok ()) :
    (∀ msg : String,
      (pipe body valves (some f) (FalOutcome.raise msg)).events =
        [generatingEvent body valves, { description := "❌ Error: " ++ msg, done := true }] ∧
      (pipe body valves (some f) (FalOutcome.raise msg)).outcome =
        PipeOutcome.ret ("Error: " ++ msg)) ∧
    (∀ result : Option GenResult, resultHasImages result = false →
      (pipe body valves (some f) (FalOutcome.ok result)).events =
        [generatingEvent body valves] ∧
      (pipe body valves (some f) (FalOutcome.ok result)).outcome =
        PipeOutcome.ret ("Error: Generation failed. Result: " ++ pyReprResult result)) ∧
    (∀ (img : Image) (rest : List Image), img.url.getD "" = "" →
      (pipe body valves (some f)
        (FalOutcome.ok (some { images := some (img :: rest) }))).events =
        [generatingEvent body valves] ∧
      (pipe body valves (some f)
        (FalOutcome.ok (some { images := some (img :: rest) }))).outcome =
        PipeOutcome.ret "Error: Image URL missing.") := by
  have hemit : ∀ m d, emit_status (some f) m d =
      Except.ok [{ description := m, done := d }] := by
    intro m d
    simp [emit_status, hf]
  refine ⟨?_, ?_, ?_⟩
  · intro msg
    unfold pipe
    simp [hmsg, hprompt, hkey, hemit, handleException, generatingEvent]
  · intro result hres
    unfold pipe
    rcases result with _ | ⟨_ | (_ | ⟨img, rest⟩)⟩
    · simp [hmsg, hprompt, hkey, hemit, failGeneration, generatingEvent]
    · simp [hmsg, hprompt, hkey, hemit, failGeneration, generatingEvent]
    · simp [hmsg, hprompt, hkey, hemit, failGeneration, generatingEvent]
    · simp [resultHasImages] at hres
  · intro img rest hurl
    unfold pipe
    simp [hmsg, hprompt, hkey, hemit, hurl, generatingEvent]

/-- C2 witness: the amended theorem at a concrete request whose dispatch
raises `"boom"`: both events in order, then the error string. -/
theorem C2_witness :
    ((pipe { model := some "falai-z-image",
             messages := some [{ role := some "user", content := Content.str "a cat" }] }
        { defaultValves with FAL_KEY := "k" } (some okSink)
        (FalOutcome.raise "boom")).events =
      [{ description := "🎨 Generating with fal-ai/z-image/turbo...", done := false },
       { description := "❌ Error: boom", done := true }]) ∧
    ((pipe { model := some "falai-z-image",
             messages := some [{ role := some "user", content := Content.str "a cat" }] }
        { defaultValves with FAL_KEY := "k" } (some okSink)
        (FalOutcome.raise "boom")).outcome = PipeOutcome.ret "Error: boom") := by
  have h := C2_amended
    { model := some "falai-z-image",
      messages := some [{ role := some "user", content := Content.str "a cat" }] }
    { defaultValves with FAL_KEY := "k" } okSink
    (by decide) (by decide) (by decide) (fun _ => rfl)
  exact ⟨((h.1 "boom").1).trans (by decide), (h.1 "boom").2⟩

/-- C8 counterexample: the claim says the pipe always returns a string and a
status-delivery failure never aborts the request, but the submitting status
emission sits outside the try block: with a sink that raises, the exception
escapes the pipe (no string is returned) and the dispatch is never made, even
though the backend would have succeeded. -/
theorem C8_counterexample :
    pipe { model := some "falai-z-image",
           messages := some [{ role := some "user", content := Content.str "a cat" }] }
      { defaultValves with FAL_KEY := "k" } (some badSink)
      (FalOutcome.ok (some { images := some [{ url := some "http://x/y.png" }] })) =
    { events := [], dispatched := none, outcome := PipeOutcome.exn "sink down" } := by
  decide

/-- C8 amended: provided the status sink never raises (or is absent), the
pipe returns a string for every request, configuration and backend behaviour;
backend exceptions are caught and surfaced only as a string. -/
theorem C8_amended (body : Body) (valves : Valves) (emitter : Emitter) (fal : FalOutcome)
    (h : ∀ f, emitter = some f → ∀ ev, f ev = Except.ok ()) :
    ∃ s, (pipe body valves emitter fal).outcome = PipeOutcome.ret s := by
  have hemit : ∀ m d, ∃ evs, emit_status emitter m d = Except.ok evs := by
    intro m d
    cases hE : emitter with
    | none => exact ⟨[], rfl⟩
    | some f =>
      exact ⟨[{ description := m, done := d }], by simp [emit_status, h f hE]⟩
  have hexc : ∀ evs dis msg,
      ∃ s, (handleException emitter evs dis msg).outcome = PipeOutcome.ret s := by
    intro evs dis msg
    obtain ⟨evs2, he⟩ := hemit ("❌ Error: " ++ msg) true
    exact ⟨"Error: " ++ msg, by simp [handleException, he]⟩
  by_cases hm : (body.messages.getD []).isEmpty
  · exact ⟨"Error: No messages found.", by simp [pipe, hm]⟩
  by_cases hp : extractPrompt (body.messages.getD []) = ""
  · exact ⟨"Error: No prompt found.", by simp [pipe, hm, hp]⟩
  by_cases hk : valves.FAL_KEY = ""
  · exact ⟨"Error: FAL_KEY not set in valves.", by simp [pipe, hm, hp, hk]⟩
  obtain ⟨evs1, he1⟩ := hemit
    ("🎨 Generating with " ++ mapGet model_map (body.model.getD "") valves.MODEL_ID ++ "...") false
  simp only [pipe, he1]
  simp only [Bool.not_eq_true] at hm
  simp [hm, hp, hk]
  cases fal with
  | raise msg => exact hexc _ _ msg
  | ok result =>
    rcases result with _ | ⟨_ | (_ | ⟨img, rest⟩)⟩
    · exact ⟨_, rfl⟩
    · exact ⟨_, rfl⟩
    · exact ⟨_, rfl⟩
    · by_cases hurl : img.url.getD "" = ""
      · exact ⟨"Error: Image URL missing.", by simp [hurl]⟩
      · obtain ⟨evs2, he2⟩ := hemit "✅ Generated successfully" true
        exact ⟨"![Generated Image](" ++ img.url.getD "" ++ ")", by simp [hurl, he2]⟩

/-- C8 witness: the amended theorem at a concrete request with no sink and a
raising backend. -/
theorem C8_witness :
    ∃ s, (pipe { model := some "falai-z-image",
                 messages := some [{ role := some "user", content := Content.str "a cat" }] }
           { defaultValves with FAL_KEY := "k" } none (FalOutcome.raise "boom")).outcome =
      PipeOutcome.ret s :=
  C8_amended
    { model := some "falai-z-image",
      messages := some [{ role := some "user", content := Content.str "a cat" }] }
    { defaultValves with FAL_KEY := "k" } none (FalOutcome.raise "boom")
    (fun _ hf => Option.noConfusion hf)

/-- C9 counterexample: no strict policy is reachable. At the concrete
unmatched identifier `"falai-unknown-model"` the pipe does not fail with an
unsupported-model error: it silently resolves to the configured default
target, dispatches to it, and returns a successful generation. -/
theorem C9_counterexample :
    mapGet model_map "falai-unknown-model" defaultValves.MODEL_ID = defaultValves.MODEL_ID ∧
    (pipe { model := some "falai-unknown-model",
            messages := some [{ role := some "user", content := Content.str "a cat" }] }
       { defaultValves with FAL_KEY := "k" } none
       (FalOutcome.ok (some { images := some [{ url := some "u" }] }))).dispatched =
      some ("fal-ai/flux-pro/v1.1-ultra",
        buildArguments "fal-ai/flux-pro/v1.1-ultra" "a cat" { defaultValves with FAL_KEY := "k" }) ∧
    (pipe { model := some "falai-unknown-model",
            messages := some [{ role := some "user", content := Content.str "a cat" }] }
       { defaultValves with FAL_KEY := "k" } none
       (FalOutcome.ok (some { images := some [{ url := some "u" }] }))).outcome =
      PipeOutcome.ret "![Generated Image](u)" := by
  refine ⟨by decide, by decide, by decide⟩

/-- C9 amended: the registry miss policy is unconditionally lenient: for
every configuration and requested identifier, resolution either falls back to
the configured default backend target or returns the target of a registered
entry; no error value exists. -/
theorem C9_lenient_only (cfg : Valves) (id : String) :
    mapGet model_map id cfg.MODEL_ID = cfg.MODEL_ID ∨
      (id, mapGet model_map id cfg.MODEL_ID) ∈ model_map := by
  unfold mapGet
  cases hfind : model_map.find? fun p => p.1 = id with
  | none => exact Or.inl rfl
  | some p =>
    have hmem := List.mem_of_find?_eq_some hfind
    have hpred : p.1 = id := by simpa using List.find?_some hfind
    right
    rw [← hpred]
    simpa using hmem

/-- C10: the pre-dispatch checks run in a fixed order: an empty message list
is reported first, whatever the prompt or credential; an empty prompt is
reported next, whatever the credential; the missing-credential error is
reached only with non-empty messages and a non-empty prompt. All three
return before any status event or dispatch. -/
theorem C10_precedence (body : Body) (valves : Valves) (emitter : Emitter) (fal : FalOutcome) :
    ((body.messages.getD []).isEmpty = true →
      pipe body valves emitter fal =
        { events := [], dispatched := none,
          outcome := PipeOutcome.ret "Error: No messages found." }) ∧
    ((body.messages.getD []).isEmpty = false →
      extractPrompt (body.messages.getD []) = "" →
      pipe body valves emitter fal =
        { events := [], dispatched := none,
          outcome := PipeOutcome.ret "Error: No prompt found." }) ∧
    ((body.messages.getD []).isEmpty = false →
      extractPrompt (body.messages.getD []) ≠ "" →
      valves.FAL_KEY = "" →
      pipe body valves emitter fal =
        { events := [], dispatched := none,
          outcome := PipeOutcome.ret "Error: FAL_KEY not set in valves." }) := by
  refine ⟨?_, ?_, ?_⟩
  · intro hm
    simp [pipe, hm]
  · intro hm hp
    simp [pipe, hm, hp]
  · intro hm hp hk
    simp [pipe, hm, hp, hk]

/-- C10 witness: the precedence theorem at three concrete requests; in the
first, messages are empty and the credential is also missing, and the
no-messages error wins. -/
theorem C10_witness :
    pipe { model := some "x", messages := some [] } defaultValves none (FalOutcome.ok none) =
      { events := [], dispatched := none,
        outcome := PipeOutcome.ret "Error: No messages found." } ∧
    pipe { model := some "x",
           messages := some [{ role := some "assistant", content := Content.str "hi" }] }
      defaultValves none (FalOutcome.ok none) =
      { events := [], dispatched := none,
        outcome := PipeOutcome.ret "Error: No prompt found." } ∧
    pipe { model := some "x",
           messages := some [{ role := some "user", content := Content.str "hi" }] }
      defaultValves none (FalOutcome.ok none) =
      { events := [], dispatched := none,
        outcome := PipeOutcome.ret "Error: FAL_KEY not set in valves." } :=
  ⟨(C10_precedence { model := some "x", messages := some [] } defaultValves none
      (FalOutcome.ok none)).1 (by decide),
   (C10_precedence { model := some "x", messages := some [{ role := some "assistant", content := Content.str "hi" }] }
     defaultValves none (FalOutcome.ok none)).2.1 (by decide) (by decide),
   (C10_precedence { model := some "x", messages := some [{ role := some "user", content := Content.str "hi" }] }
     defaultValves none (FalOutcome.ok none)).2.2 (by decide) (by decide) (by decide)⟩

end FalPipe
